import Mathlib

/-!
Verification of the two adapters in this repository:

* `langchain/llms/writer.py` — the `Writer` hosted-model completion adapter
  (`Writer._default_params`, `Writer.validate_environment`, `Writer._call`).
* `langchain/chains/graph_qa/kuzu.py` — the `KuzuQAChain` graph question
  answering pipeline (`input_keys`, `output_keys`, `KuzuQAChain._call`).

External collaborators (the HTTP transport `requests.post`, the graph object,
the two `LLMChain` collaborators, the callback manager) are modelled as
explicit function parameters.  Python dictionaries are modelled as association
lists with Python's `{**a, **b}` merge semantics.
-/

namespace LangchainSpec

/-- A Python dictionary with `String` keys, modelled as an association list. -/
abbrev Dict (α : Type) : Type := List (String × α)

/-- Lookup of a key in a dictionary (first matching entry). -/
def dictLookup {α : Type} (d : Dict α) (k : String) : Option α :=
  match d.find? (fun kv => kv.1 = k) with
  | some kv => some kv.2
  | none => none

/-- Python dictionary update `d[k] = v`: replace the value at an existing key
in place, otherwise append the new entry at the end. -/
def dictInsert {α : Type} (d : Dict α) (k : String) (v : α) : Dict α :=
  if d.any (fun kv => kv.1 = k) then
    d.map (fun kv => if kv.1 = k then (k, v) else kv)
  else
    d ++ [(k, v)]

/-- Python's right-biased dictionary merge `{**a, **b}`. -/
def dictMerge {α : Type} (a b : Dict α) : Dict α :=
  b.foldl (fun d kv => dictInsert d kv.1 kv.2) a

/-- The keys of a dictionary, in order. -/
def dictKeys {α : Type} (d : Dict α) : List String :=
  d.map Prod.fst

/-- A Python value as it appears in the JSON body of the Writer request:
`None`, an integer, a float (modelled as a rational), a boolean, a string,
or a list of strings. -/
inductive PyVal : Type where
  | null : PyVal
  | int : Int → PyVal
  | num : ℚ → PyVal
  | bool : Bool → PyVal
  | str : String → PyVal
  | strList : List String → PyVal
deriving DecidableEq, Repr

/-- `Option Int` field rendered into the params dict (`None` ↦ `null`). -/
def optInt : Option Int → PyVal
  | none => .null
  | some i => .int i

/-- `Option ℚ` field rendered into the params dict (`None` ↦ `null`). -/
def optNum : Option ℚ → PyVal
  | none => .null
  | some q => .num q

/-- `Optional[List[str]]` field rendered into the params dict. -/
def optStrList : Option (List String) → PyVal
  | none => .null
  | some xs => .strList xs

/-- Python `str()` of an `Optional[str]` as interpolated by an f-string:
`None` renders as `"None"`. -/
def pyStr : Option String → String
  | none => "None"
  | some s => s

/-- The configuration fields of the `Writer` pydantic model
(`langchain/llms/writer.py`, class `Writer`), with the class's declared
defaults. -/
structure Writer : Type where
  writer_org_id : Option String := none
  model_id : String := "palmyra-instruct"
  min_tokens : Option Int := none
  max_tokens : Option Int := none
  temperature : Option ℚ := none
  top_p : Option ℚ := none
  stop : Option (List String) := none
  presence_penalty : Option ℚ := none
  repetition_penalty : Option ℚ := none
  best_of : Option Int := none
  logprobs : Bool := false
  n : Option Int := none
  writer_api_key : Option String := none
  base_url : Option String := none
deriving DecidableEq, Repr

namespace Writer

/-- `Writer._default_params`: the default parameters for calling the Writer
API.  Every recognized option key is present; unset options map to `None`. -/
def default_params (w : Writer) : Dict PyVal :=
  [("minTokens", optInt w.min_tokens),
   ("maxTokens", optInt w.max_tokens),
   ("temperature", optNum w.temperature),
   ("topP", optNum w.top_p),
   ("stop", optStrList w.stop),
   ("presencePenalty", optNum w.presence_penalty),
   ("repetitionPenalty", optNum w.repetition_penalty),
   ("bestOf", optInt w.best_of),
   ("logprobs", PyVal.bool w.logprobs),
   ("n", optInt w.n)]

/-- The parameters of one `Writer._call` invocation:
`params = {**self._default_params, **kwargs}`. -/
def callParams (w : Writer) (kwargs : Dict PyVal) : Dict PyVal :=
  dictMerge w.default_params kwargs

/-- Endpoint resolution in `Writer._call`: the configured `base_url` when one
is set, otherwise the fixed template with organization id and model id
substituted. -/
def resolvedUrl (w : Writer) : String :=
  match w.base_url with
  | some u => u
  | none =>
      "https://enterprise-api.writer.com/llm" ++
      "/organization/" ++ pyStr w.writer_org_id ++
      "/model/" ++ w.model_id ++ "/completions"

end Writer

/-- An HTTP response as surfaced by the transport collaborator (`requests`):
a status code and the body text.  `requests.post` returns a response object
for any HTTP status; it raises only on transport failures. -/
structure HttpResponse : Type where
  status : Nat
  text : String
deriving DecidableEq, Repr

/-- The HTTP request issued by `Writer._call`. -/
structure HttpRequest : Type where
  url : String
  headers : Dict String
  body : Dict PyVal
deriving DecidableEq, Repr

/-- The outbound request built by `Writer._call`: resolved endpoint, the
three headers, and the JSON body `{"prompt": prompt, **params}`. -/
def Writer.request (w : Writer) (prompt : String) (kwargs : Dict PyVal) :
    HttpRequest :=
  { url := w.resolvedUrl
    headers := [("Authorization", pyStr w.writer_api_key),
                ("Content-Type", "application/json"),
                ("Accept", "application/json")]
    body := dictMerge [("prompt", PyVal.str prompt)] (w.callParams kwargs) }

/-- Does any stop sequence in `stop` occur at the start of `cs`? -/
def matchesAnyStop (stop : List String) (cs : List Char) : Bool :=
  stop.any (fun s => s.toList.isPrefixOf cs)

/-- Does any stop sequence in `stop` occur in `cs` at position `i`? -/
def stopMatchAt (stop : List String) (cs : List Char) (i : Nat) : Bool :=
  matchesAnyStop stop (cs.drop i)

/-- Truncate a character list immediately before the leftmost occurrence of
any stop sequence; keep it whole when none occurs. -/
def truncateAtStop (stop : List String) : List Char → List Char
  | [] => []
  | c :: cs => if matchesAnyStop stop (c :: cs) then [] else c :: truncateAtStop stop cs

/-- Modelled from the spec: `enforce_stop_tokens` lives in
`langchain/llms/utils.py`, which is not part of the sources here.  Per the
spec it scans the result text left-to-right for the earliest occurring
occurrence of any listed stop sequence and truncates the result immediately
before it; if none occur it returns the text unmodified. -/
def enforce_stop_tokens (text : String) (stop : List String) : String :=
  String.mk (truncateAtStop stop text.toList)

/-- The post-processing of the response text in `Writer._call`:
`enforce_stop_tokens` is applied only when a stop list was supplied. -/
def applyStop (text : String) (stop : Option (List String)) : String :=
  match stop with
  | none => text
  | some st => enforce_stop_tokens text st

/-- `Writer._call`: build the request, issue one POST through the transport
collaborator `post`, take the response body text, and apply stop-sequence
truncation when a stop list was supplied.  A transport error raised by the
POST propagates; the response status is never inspected. -/
def Writer.call {ε : Type} (w : Writer) (post : HttpRequest → Except ε HttpResponse)
    (prompt : String) (stop : Option (List String)) (kwargs : Dict PyVal) :
    Except ε String :=
  match post (w.request prompt kwargs) with
  | .error e => .error e
  | .ok response => .ok (applyStop response.text stop)

/-- A configuration error raised during construction of the adapter:
either an unrecognized field (pydantic `Extra.forbid`) or a credential
missing from both the arguments and the environment. -/
inductive ConfigError : Type where
  | extraFieldNotPermitted : String → ConfigError
  | missingValue : String → ConfigError
deriving DecidableEq, Repr

/-- Modelled from the spec: `get_from_dict_or_env` lives in
`langchain/utils.py`, which is not part of the sources here.  Per the spec a
credential is resolvable either from explicit construction arguments or from
a process-wide named environment entry; resolution fails if neither source
supplies a value. -/
def get_from_dict_or_env (argVal : Option String) (envVal : Option String)
    (envKey : String) : Except ConfigError String :=
  match argVal with
  | some v => .ok v
  | none =>
      match envVal with
      | some v => .ok v
      | none => .error (.missingValue envKey)

/-- `Writer.validate_environment`: resolve the API key and the organization
id, each from the construction arguments or from the environment, failing
when neither source supplies the value. -/
def Writer.validate_environment (argApiKey argOrgId : Option String)
    (envApiKey envOrgId : Option String) : Except ConfigError (String × String) :=
  match get_from_dict_or_env argApiKey envApiKey "WRITER_API_KEY" with
  | .error e => .error e
  | .ok writer_api_key =>
      match get_from_dict_or_env argOrgId envOrgId "WRITER_ORG_ID" with
      | .error e => .error e
      | .ok writer_org_id => .ok (writer_api_key, writer_org_id)

/-- The declared configuration field names of the `Writer` pydantic model. -/
def writerFieldNames : List String :=
  ["writer_org_id", "model_id", "min_tokens", "max_tokens", "temperature",
   "top_p", "stop", "presence_penalty", "repetition_penalty", "best_of",
   "logprobs", "n", "writer_api_key", "base_url"]

/-- Extract an optional string-typed keyword argument. -/
def kwStr (kwargs : Dict PyVal) (k : String) : Option String :=
  match dictLookup kwargs k with
  | some (PyVal.str s) => some s
  | _ => none

/-- Extract an optional int-typed keyword argument. -/
def kwInt (kwargs : Dict PyVal) (k : String) : Option Int :=
  match dictLookup kwargs k with
  | some (PyVal.int i) => some i
  | _ => none

/-- Extract an optional float-typed keyword argument. -/
def kwNum (kwargs : Dict PyVal) (k : String) : Option ℚ :=
  match dictLookup kwargs k with
  | some (PyVal.num q) => some q
  | _ => none

/-- Extract an optional list-of-strings keyword argument. -/
def kwStrList (kwargs : Dict PyVal) (k : String) : Option (List String) :=
  match dictLookup kwargs k with
  | some (PyVal.strList xs) => some xs
  | _ => none

/-- Construction of a `Writer` instance, as pydantic performs it with the
class's `Config.extra = Extra.forbid`: a supplied field name outside the
declared set is a validation error; otherwise fields are assigned (declared
defaults for absent ones) and the `validate_environment` root validator
resolves the two credentials from the arguments or from the process
environment `envApiKey`/`envOrgId`.  No transport interaction occurs
anywhere in construction. -/
def Writer.construct (kwargs : Dict PyVal) (envApiKey envOrgId : Option String) :
    Except ConfigError Writer :=
  match kwargs.find? (fun kv => !(decide (kv.1 ∈ writerFieldNames))) with
  | some kv => .error (.extraFieldNotPermitted kv.1)
  | none =>
      match Writer.validate_environment (kwStr kwargs "writer_api_key")
          (kwStr kwargs "writer_org_id") envApiKey envOrgId with
      | .error e => .error e
      | .ok (writer_api_key, writer_org_id) =>
          .ok { writer_org_id := some writer_org_id
                model_id := (kwStr kwargs "model_id").getD "palmyra-instruct"
                min_tokens := kwInt kwargs "min_tokens"
                max_tokens := kwInt kwargs "max_tokens"
                temperature := kwNum kwargs "temperature"
                top_p := kwNum kwargs "top_p"
                stop := kwStrList kwargs "stop"
                presence_penalty := kwNum kwargs "presence_penalty"
                repetition_penalty := kwNum kwargs "repetition_penalty"
                best_of := kwInt kwargs "best_of"
                logprobs := (match dictLookup kwargs "logprobs" with
                             | some (PyVal.bool b) => b
                             | _ => false)
                n := kwInt kwargs "n"
                writer_api_key := some writer_api_key
                base_url := kwStr kwargs "base_url" }

/-- A value passed as a named input to the question-answering `LLMChain`
call: the question is a string, while the context is the untouched value
returned by the graph's query execution. -/
inductive ChainVal (γ : Type) : Type where
  | str : String → ChainVal γ
  | ctx : γ → ChainVal γ

/-- The key fields of the `KuzuQAChain` pydantic model
(`langchain/chains/graph_qa/kuzu.py`), with their declared defaults.  The
`graph`, `cypher_generation_chain` and `qa_chain` collaborators are passed
separately to `KuzuQAChain.call`. -/
structure KuzuQAChain : Type where
  input_key : String := "query"
  output_key : String := "result"
deriving DecidableEq, Repr

/-- `KuzuQAChain.input_keys`: the declared input keys. -/
def KuzuQAChain.input_keys (c : KuzuQAChain) : List String :=
  [c.input_key]

/-- `KuzuQAChain.output_keys`: the declared output keys. -/
def KuzuQAChain.output_keys (c : KuzuQAChain) : List String :=
  [c.output_key]

/-- The collaborators of one `KuzuQAChain._call` invocation: the graph
object (`get_schema` accessor and fallible `query` execution over an error
type `ε` and a result type `γ`), the cypher-generation `LLMChain` (`run`
returns the completion string), the question-answering `LLMChain` (called
with named inputs, returning an output dictionary with its designated
output key), and Python `str()` on query results, used by the diagnostic
`on_text` notifications. -/
structure KuzuCollab (ε γ : Type) : Type where
  get_schema : String
  queryFn : String → Except ε γ
  genRun : Dict String → String
  qaRun : Dict (ChainVal γ) → Dict String
  qaOutputKey : String
  ctxStr : γ → String

/-- An error surfaced by `KuzuQAChain._call`: a missing dictionary key
(Python `KeyError`) or an error raised by the graph's query execution,
propagated unmodified. -/
inductive ChainError (ε : Type) : Type where
  | keyError : String → ChainError ε
  | graphError : ε → ChainError ε

/-- One observable collaborator interaction of `KuzuQAChain._call`, in
order: the cypher-generation call with its named inputs, the graph query
execution with the statement passed, a diagnostic `on_text` notification,
and the question-answering call with its named inputs. -/
inductive KEvent (γ : Type) : Type where
  | genCall : Dict String → KEvent γ
  | graphQuery : String → KEvent γ
  | onText : String → KEvent γ
  | qaCall : Dict (ChainVal γ) → KEvent γ

/-- The body of `KuzuQAChain._call` after the question has been read from
the inputs: generate the cypher statement from `{question, schema}`, execute
it on the graph (a graph error propagates), then call the question-answering
chain with `{question, context}` and keep its designated output field.  The
second component is the trace of collaborator interactions, in order. -/
def kuzuRun {ε γ : Type} (c : KuzuQAChain) (collab : KuzuCollab ε γ)
    (question : String) :
    Except (ChainError ε) (Dict String) × List (KEvent γ) :=
  let genInputs : Dict String :=
    [("question", question), ("schema", collab.get_schema)]
  let generated_cypher := collab.genRun genInputs
  let ev1 : List (KEvent γ) :=
    [.genCall genInputs, .onText "Generated Cypher:", .onText generated_cypher,
     .graphQuery generated_cypher]
  match collab.queryFn generated_cypher with
  | .error e => (.error (.graphError e), ev1)
  | .ok context =>
      let qaInputs : Dict (ChainVal γ) :=
        [("question", ChainVal.str question), ("context", ChainVal.ctx context)]
      let ev2 : List (KEvent γ) :=
        [.genCall genInputs, .onText "Generated Cypher:", .onText generated_cypher,
         .graphQuery generated_cypher, .onText "Full Context:",
         .onText (collab.ctxStr context), .qaCall qaInputs]
      (match dictLookup (collab.qaRun qaInputs) collab.qaOutputKey with
       | none => .error (.keyError collab.qaOutputKey)
       | some answer => .ok [(c.output_key, answer)], ev2)

/-- `KuzuQAChain._call`: read the question at the chain's input key and run
the pipeline; a missing input key is a `KeyError`. -/
def KuzuQAChain.call {ε γ : Type} (c : KuzuQAChain) (collab : KuzuCollab ε γ)
    (inputs : Dict String) :
    Except (ChainError ε) (Dict String) × List (KEvent γ) :=
  match dictLookup inputs c.input_key with
  | none => (.error (.keyError c.input_key), [])
  | some question => kuzuRun c collab question

/-- A concrete adapter instance: organization `"org1"`, the default model,
`temperature = 0.5` and `n = 1` set, every other option unset. -/
def exWriter : Writer :=
  { writer_org_id := some "org1", writer_api_key := some "key",
    temperature := some ((1 : ℚ)/2), n := some 1 }

/-- A concrete call-site override mapping: `{"temperature": 0.9}`. -/
def exKwargs : Dict PyVal := [("temperature", PyVal.num ((9 : ℚ)/10))]

/-- A transport collaborator that answers every POST with the given HTTP
status and body text (and never raises). -/
def exPostStatus (st : Nat) (body : String) : HttpRequest → Except Unit HttpResponse :=
  fun _ => .ok { status := st, text := body }

/-- A transport collaborator that raises a transport error on every POST. -/
def exPostErr : HttpRequest → Except Unit HttpResponse :=
  fun _ => .error ()

/-- A concrete set of pipeline collaborators whose graph query execution
succeeds. -/
def exCollab : KuzuCollab Unit String :=
  { get_schema := "node Person"
    queryFn := fun _ => .ok "rows"
    genRun := fun _ => "MATCH (n) RETURN n"
    qaRun := fun _ => [("text", "the answer")]
    qaOutputKey := "text"
    ctxStr := fun s => s }

/-- The collaborators of `exCollab`, with a graph query execution that
raises on every statement. -/
def exCollabErr : KuzuCollab Unit String :=
  { exCollab with queryFn := fun _ => .error () }

theorem dictLookup_nil {α : Type} (k : String) : dictLookup ([] : Dict α) k = none := rfl

theorem dictLookup_cons {α : Type} (a : String) (b : α) (tl : Dict α) (k : String) :
    dictLookup ((a, b) :: tl) k = if a = k then some b else dictLookup tl k := by
  by_cases h : a = k
  · simp [dictLookup, List.find?_cons_of_pos, h]
  · simp only [dictLookup, if_neg h]
    rw [List.find?_cons_of_neg]
    simp [h]

theorem dictLookup_eq_none {α : Type} (d : Dict α) (k : String) (h : k ∉ dictKeys d) :
    dictLookup d k = none := by
  induction d with
  | nil => rfl
  | cons hd tl ih =>
      obtain ⟨a, b⟩ := hd
      simp only [dictKeys, List.map_cons, List.mem_cons, not_or] at h
      rw [dictLookup_cons, if_neg (fun e => h.1 e.symm)]
      exact ih h.2

theorem dictLookup_map_update_ne {α : Type} (d : Dict α) (k : String) (v : α)
    (k' : String) (h : k' ≠ k) :
    dictLookup (d.map (fun kv => if kv.1 = k then (k, v) else kv)) k' =
      dictLookup d k' := by
  induction d with
  | nil => rfl
  | cons hd tl ih =>
      obtain ⟨a, b⟩ := hd
      by_cases ha : a = k
      · subst ha
        rw [List.map_cons, if_pos rfl, dictLookup_cons, dictLookup_cons,
          if_neg (fun e => h e.symm), if_neg (fun e => h e.symm), ih]
      · rw [List.map_cons, if_neg ha, dictLookup_cons, dictLookup_cons, ih]

theorem dictLookup_map_update_mem {α : Type} (d : Dict α) (k : String) (v : α)
    (h : k ∈ dictKeys d) :
    dictLookup (d.map (fun kv => if kv.1 = k then (k, v) else kv)) k = some v := by
  induction d with
  | nil => simp [dictKeys] at h
  | cons hd tl ih =>
      obtain ⟨a, b⟩ := hd
      by_cases ha : a = k
      · subst ha
        rw [List.map_cons, if_pos rfl, dictLookup_cons, if_pos rfl]
      · have htl : k ∈ dictKeys tl := by
          simp only [dictKeys, List.map_cons, List.mem_cons] at h
          exact h.resolve_left (fun e => ha e.symm)
        rw [List.map_cons, if_neg ha, dictLookup_cons, if_neg ha, ih htl]

theorem dictLookup_append_ne {α : Type} (d : Dict α) (k : String) (v : α)
    (k' : String) (h : k' ≠ k) :
    dictLookup (d ++ [(k, v)]) k' = dictLookup d k' := by
  induction d with
  | nil =>
      rw [List.nil_append, dictLookup_cons, if_neg (fun e => h e.symm), dictLookup_nil]
  | cons hd tl ih =>
      obtain ⟨a, b⟩ := hd
      rw [List.cons_append, dictLookup_cons, dictLookup_cons, ih]

theorem dictLookup_append_last {α : Type} (d : Dict α) (k : String) (v : α)
    (h : k ∉ dictKeys d) :
    dictLookup (d ++ [(k, v)]) k = some v := by
  induction d with
  | nil => rw [List.nil_append, dictLookup_cons, if_pos rfl]
  | cons hd tl ih =>
      obtain ⟨a, b⟩ := hd
      simp only [dictKeys, List.map_cons, List.mem_cons, not_or] at h
      rw [List.cons_append, dictLookup_cons, if_neg (fun e => h.1 e.symm)]
      exact ih h.2

theorem dictLookup_insert {α : Type} (d : Dict α) (k : String) (v : α) (k' : String) :
    dictLookup (dictInsert d k v) k' = if k' = k then some v else dictLookup d k' := by
  unfold dictInsert
  by_cases hmem : k ∈ dictKeys d
  · have hany : d.any (fun kv => kv.1 = k) = true := by
      simp only [dictKeys, List.mem_map] at hmem
      obtain ⟨kv, hkv, hfst⟩ := hmem
      exact List.any_eq_true.mpr ⟨kv, hkv, by simp [hfst]⟩
    rw [if_pos hany]
    by_cases hk : k' = k
    · subst hk; rw [if_pos rfl]; exact dictLookup_map_update_mem d k' v hmem
    · rw [if_neg hk]; exact dictLookup_map_update_ne d k v k' hk
  · have hany : d.any (fun kv => kv.1 = k) = false := by
      rw [List.any_eq_false]
      intro kv hkv
      simp only [decide_eq_true_eq]
      intro e
      exact hmem (by simp only [dictKeys, List.mem_map]; exact ⟨kv, hkv, e⟩)
    rw [if_neg (by simp [hany])]
    by_cases hk : k' = k
    · subst hk; rw [if_pos rfl]; exact dictLookup_append_last d k' v hmem
    · rw [if_neg hk]; exact dictLookup_append_ne d k v k' hk

theorem dictMerge_nil {α : Type} (a : Dict α) : dictMerge a [] = a := rfl

theorem dictMerge_cons {α : Type} (a : Dict α) (k : String) (v : α) (b : Dict α) :
    dictMerge a ((k, v) :: b) = dictMerge (dictInsert a k v) b := rfl

/-- Left side of the right-biased merge: a key absent from the overrides is
looked up in the left dictionary. -/
theorem dictLookup_merge_left {α : Type} (a b : Dict α) (k : String)
    (h : dictLookup b k = none) :
    dictLookup (dictMerge a b) k = dictLookup a k := by
  induction b generalizing a with
  | nil => rfl
  | cons hd tl ih =>
      obtain ⟨k₀, v₀⟩ := hd
      rw [dictLookup_cons] at h
      by_cases hk : k₀ = k
      · rw [if_pos hk] at h; exact absurd h (by simp)
      · rw [if_neg hk] at h
        rw [dictMerge_cons, ih _ h, dictLookup_insert, if_neg (fun e => hk e.symm)]

/-- Right side of the right-biased merge: a key present in the overrides
takes its override value (overrides form a Python dict, so their keys are
distinct). -/
theorem dictLookup_merge_right {α : Type} (a b : Dict α) (hb : (dictKeys b).Nodup)
    (k : String) (v : α) (h : dictLookup b k = some v) :
    dictLookup (dictMerge a b) k = some v := by
  induction b generalizing a with
  | nil => exact absurd h (by simp [dictLookup_nil])
  | cons hd tl ih =>
      obtain ⟨k₀, v₀⟩ := hd
      simp only [dictKeys, List.map_cons, List.nodup_cons] at hb
      rw [dictLookup_cons] at h
      by_cases hk : k₀ = k
      · rw [if_pos hk] at h
        subst hk
        have htl : dictLookup tl k₀ = none :=
          dictLookup_eq_none tl k₀ hb.1
        rw [dictMerge_cons, dictLookup_merge_left _ _ _ htl, dictLookup_insert,
          if_pos rfl]
        exact h
      · rw [if_neg hk] at h
        rw [dictMerge_cons]
        exact ih _ hb.2 h

theorem string_mk_toList (s : String) : String.mk s.toList = s := rfl

/-- When no stop sequence occurs anywhere in the text, truncation keeps the
text whole. -/
theorem truncateAtStop_of_no_match (stop : List String) (cs : List Char)
    (h : ∀ j, stopMatchAt stop cs j = false) :
    truncateAtStop stop cs = cs := by
  induction cs with
  | nil => rfl
  | cons c tl ih =>
      have h0 : matchesAnyStop stop (c :: tl) = false := h 0
      rw [truncateAtStop, if_neg (by simp [h0])]
      exact congrArg (c :: ·) (ih (fun j => h (j + 1)))

/-- Truncation cuts exactly at the leftmost position where some stop
sequence occurs. -/
theorem truncateAtStop_take (stop : List String) (cs : List Char) (i : Nat)
    (hm : stopMatchAt stop cs i = true)
    (hmin : ∀ j < i, stopMatchAt stop cs j = false) :
    truncateAtStop stop cs = cs.take i := by
  induction cs generalizing i with
  | nil => simp [truncateAtStop]
  | cons c tl ih =>
      cases i with
      | zero =>
          have h0 : matchesAnyStop stop (c :: tl) = true := hm
          rw [truncateAtStop, if_pos (by simp [h0]), List.take_zero]
      | succ j =>
          have h0 : matchesAnyStop stop (c :: tl) = false := hmin 0 (Nat.succ_pos j)
          have hm' : stopMatchAt stop tl j = true := hm
          have hmin' : ∀ m < j, stopMatchAt stop tl m = false :=
            fun m hmj => hmin (m + 1) (by omega)
          rw [truncateAtStop, if_neg (by simp [h0]), List.take_succ_cons]
          exact congrArg (c :: ·) (ih j hm' hmin')

/-- C1, counterexample: with adapter defaults `temperature = 0.5`, `n = 1`
(all other options unset) and call-site override `{temperature: 0.9}`, the
outbound request parameters are not `{temperature: 0.9, n: 1}`: the unset
option `min_tokens` still contributes the key `"minTokens"`, mapped to
`null`, so an unset option is present in the outbound request. -/
theorem writer_params_unset_key_present :
    exWriter.min_tokens = none ∧
    dictLookup (exWriter.callParams exKwargs) "minTokens" = some PyVal.null ∧
    dictKeys (exWriter.callParams exKwargs) ≠ ["temperature", "n"] :=
  ⟨rfl, by decide, by decide⟩

/-- C1 (amended): the outbound request parameters are the key-by-key
right-biased merge of the adapter's default-parameter mapping with the
call-site overrides (the call-site value wins for every key present in
both, and a key absent from the overrides keeps its default value); the
default mapping always carries every recognized option key, an unset
option being mapped to `null` (and `logprobs` defaulting to `false`), so
with defaults `{temperature: 0.5, n: 1}` and overrides `{temperature: 0.9}`
the parameters map `temperature` to `0.9`, `n` to `1`, `logprobs` to
`false`, and every other recognized option key to `null`. -/
theorem writer_params_merge :
    (∀ (w : Writer) (kwargs : Dict PyVal), (dictKeys kwargs).Nodup →
        (∀ k v, dictLookup kwargs k = some v →
            dictLookup (w.callParams kwargs) k = some v) ∧
        (∀ k, dictLookup kwargs k = none →
            dictLookup (w.callParams kwargs) k = dictLookup w.default_params k)) ∧
    exWriter.callParams exKwargs =
      [("minTokens", PyVal.null), ("maxTokens", PyVal.null),
       ("temperature", PyVal.num ((9 : ℚ)/10)), ("topP", PyVal.null),
       ("stop", PyVal.null), ("presencePenalty", PyVal.null),
       ("repetitionPenalty", PyVal.null), ("bestOf", PyVal.null),
       ("logprobs", PyVal.bool false), ("n", PyVal.int 1)] := by
  refine ⟨fun w kwargs hnd => ⟨?_, ?_⟩, rfl⟩
  · exact fun k v h => dictLookup_merge_right _ _ hnd k v h
  · exact fun k h => dictLookup_merge_left _ _ k h

/-- Witness for C1 (amended) at the adapter `exWriter` and the override
mapping `exKwargs`: the call-site override for `"temperature"` wins. -/
theorem writer_params_merge_witness :
    dictLookup (exWriter.callParams exKwargs) "temperature" =
      some (PyVal.num ((9 : ℚ)/10)) :=
  (writer_params_merge.1 exWriter exKwargs (by decide)).1 "temperature"
    (PyVal.num ((9 : ℚ)/10)) rfl

/-- C2: when the POST yields a response, `Writer._call` returns the
response text unmodified if no stop list was supplied or if no listed stop
sequence occurs in it, and otherwise returns the prefix of the response
text ending immediately before the leftmost position at which any listed
stop sequence occurs. -/
theorem writer_stop_truncation {ε : Type} (w : Writer)
    (post : HttpRequest → Except ε HttpResponse) (prompt : String)
    (kwargs : Dict PyVal) (response : HttpResponse)
    (hpost : post (w.request prompt kwargs) = .ok response) :
    (w.call post prompt none kwargs = .ok response.text) ∧
    (∀ stop : List String,
        (∀ j, stopMatchAt stop response.text.toList j = false) →
        w.call post prompt (some stop) kwargs = .ok response.text) ∧
    (∀ (stop : List String) (i : Nat),
        stopMatchAt stop response.text.toList i = true →
        (∀ j < i, stopMatchAt stop response.text.toList j = false) →
        w.call post prompt (some stop) kwargs =
          .ok (String.mk (response.text.toList.take i))) := by
  refine ⟨?_, ?_, ?_⟩
  · simp [Writer.call, hpost, applyStop]
  · intro stop h
    simp only [Writer.call, hpost, applyStop, enforce_stop_tokens,
      truncateAtStop_of_no_match stop _ h, string_mk_toList]
  · intro stop i hm hmin
    simp only [Writer.call, hpost, applyStop, enforce_stop_tokens,
      truncateAtStop_take stop _ i hm hmin]

/-- Witness for C2: the response text `"abSTOP1cd"` with stop list
`["STOP1", "STOP2"]` is truncated to `"ab"`, the prefix before the
occurrence of `"STOP1"` at index 2. -/
theorem writer_stop_truncation_witness :
    exWriter.call (exPostStatus 200 "abSTOP1cd") "p" (some ["STOP1", "STOP2"]) [] =
      .ok "ab" := by
  have h := (writer_stop_truncation exWriter (exPostStatus 200 "abSTOP1cd") "p" []
      { status := 200, text := "abSTOP1cd" } rfl).2.2 ["STOP1", "STOP2"] 2
      (by decide) (by decide)
  rw [h]
  exact congrArg Except.ok (by decide)

/-- C3, counterexample: when the transport collaborator answers the POST
with HTTP status 500, `Writer._call` does not raise: it returns the
response body text as the completion result (the status is never
inspected). -/
theorem writer_non_success_status_returns_text :
    exWriter.call (exPostStatus 500 "Internal Server Error") "p" none [] =
      .ok "Internal Server Error" := rfl

/-- C3 (amended): a transport-layer error raised by the POST propagates to
the caller unmodified, with no local catch or translation; but a non-success
HTTP status does not make the operation raise — whatever response the
transport returns, its body text is consumed (with stop truncation applied)
regardless of its status code. -/
theorem writer_error_propagation {ε : Type} (w : Writer)
    (post : HttpRequest → Except ε HttpResponse) (prompt : String)
    (stop : Option (List String)) (kwargs : Dict PyVal) :
    (∀ e, post (w.request prompt kwargs) = .error e →
        w.call post prompt stop kwargs = .error e) ∧
    (∀ response, post (w.request prompt kwargs) = .ok response →
        w.call post prompt stop kwargs = .ok (applyStop response.text stop)) := by
  constructor <;> intro x h <;> simp [Writer.call, h]

/-- Witness for C3 (amended): a raising transport propagates its error. -/
theorem writer_error_propagation_witness :
    exWriter.call exPostErr "p" none [] = .error () :=
  (writer_error_propagation exWriter exPostErr "p" none []).1 () rfl

/-- C7: the resolved request endpoint is the configured base-URL override
verbatim when one is set, and otherwise the fixed template with the
organization id and model id substituted; in particular `"org1"` and
`"modelA"` resolve to the enterprise completions URL, and an override
`"https://x/y"` is used as-is. -/
theorem writer_endpoint_resolution :
    (∀ (w : Writer) (u : String), w.base_url = some u → w.resolvedUrl = u) ∧
    (∀ (w : Writer) (org : String), w.base_url = none →
        w.writer_org_id = some org →
        w.resolvedUrl = "https://enterprise-api.writer.com/llm" ++
          "/organization/" ++ org ++ "/model/" ++ w.model_id ++ "/completions") ∧
    ({ exWriter with model_id := "modelA" } : Writer).resolvedUrl =
      "https://enterprise-api.writer.com/llm/organization/org1/model/modelA/completions" ∧
    ({ exWriter with base_url := some "https://x/y" } : Writer).resolvedUrl =
      "https://x/y" := by
  refine ⟨?_, ?_, by decide, rfl⟩
  · intro w u h; simp [Writer.resolvedUrl, h]
  · intro w org h1 h2; simp [Writer.resolvedUrl, h1, h2, pyStr]

/-- Witness for C7: applying the override branch at `"https://x/y"`. -/
theorem writer_endpoint_resolution_witness :
    ({ exWriter with base_url := some "https://x/y" } : Writer).resolvedUrl =
      "https://x/y" :=
  writer_endpoint_resolution.1 _ "https://x/y" rfl

/-- C4: the first collaborator interaction of `KuzuQAChain._call` is the
query-generation call, and it receives exactly the named-input mapping
`{question: q, schema: s}` where `q` is the question read from the inputs
and `s` is the graph's schema; as a mapping it sends `"question"` to `q`,
`"schema"` to `s` and nothing else, so changing either value changes only
the corresponding named input. -/
theorem kuzu_generation_inputs {ε γ : Type} (c : KuzuQAChain)
    (collab : KuzuCollab ε γ) (inputs : Dict String) (q : String)
    (h : dictLookup inputs c.input_key = some q) :
    ((c.call collab inputs).2.head? =
        some (.genCall [("question", q), ("schema", collab.get_schema)])) ∧
    (∀ k, dictLookup [("question", q), ("schema", collab.get_schema)] k =
        if k = "question" then some q
        else if k = "schema" then some collab.get_schema else none) := by
  constructor
  · rw [KuzuQAChain.call, h]
    rcases hq : collab.queryFn
        (collab.genRun [("question", q), ("schema", collab.get_schema)]) with e | ctx
    · simp [kuzuRun, hq]
    · simp [kuzuRun, hq]
  · intro k
    by_cases h1 : k = "question"
    · subst h1; simp [dictLookup_cons]
    · by_cases h2 : k = "schema"
      · subst h2; simp [dictLookup_cons]
      · simp [dictLookup_cons, dictLookup_nil, h1, h2, Ne.symm h1, Ne.symm h2]

/-- Witness for C4 at concrete collaborators: the generation call receives
`{question: "Who?", schema: "node Person"}`. -/
theorem kuzu_generation_inputs_witness :
    ((KuzuQAChain.call {} exCollab [("query", "Who?")]).2.head? =
        some (KEvent.genCall [("question", "Who?"), ("schema", "node Person")])) :=
  (kuzu_generation_inputs {} exCollab [("query", "Who?")] "Who?" rfl).1

/-- C5: when the graph's query execution returns a context value, the last
collaborator interaction of `KuzuQAChain._call` is the answer-synthesis
call, and it receives exactly the named-input mapping
`{question: q, context: c}` with the context value verbatim; and the
pipeline's returned mapping carries, at the chain's output key, the
synthesis call's designated output field. -/
theorem kuzu_qa_inputs_and_result {ε γ : Type} (c : KuzuQAChain)
    (collab : KuzuCollab ε γ) (inputs : Dict String) (q : String) (ctx : γ)
    (h : dictLookup inputs c.input_key = some q)
    (hq : collab.queryFn
        (collab.genRun [("question", q), ("schema", collab.get_schema)]) = .ok ctx) :
    ((c.call collab inputs).2.getLast? =
        some (.qaCall [("question", ChainVal.str q), ("context", ChainVal.ctx ctx)])) ∧
    (∀ a, dictLookup
          (collab.qaRun [("question", ChainVal.str q), ("context", ChainVal.ctx ctx)])
          collab.qaOutputKey = some a →
        (c.call collab inputs).1 = .ok [(c.output_key, a)]) := by
  constructor
  · rw [KuzuQAChain.call, h]
    simp [kuzuRun, hq]
  · intro a ha
    rw [KuzuQAChain.call, h]
    simp [kuzuRun, hq, ha]

/-- Witness for C5 at concrete collaborators: the pipeline returns the
synthesis output `"the answer"` at the output key `"result"`. -/
theorem kuzu_qa_inputs_and_result_witness :
    (KuzuQAChain.call {} exCollab [("query", "Who?")]).1 =
      .ok [("result", "the answer")] :=
  (kuzu_qa_inputs_and_result {} exCollab [("query", "Who?")] "Who?" "rows"
    rfl rfl).2 "the answer" rfl

/-- C6: when the graph's query execution raises an error `e` on the
generated query, `KuzuQAChain._call` surfaces exactly that graph error `e`,
propagated without retrying, falling back, catching or translating it. -/
theorem kuzu_graph_error_propagation {ε γ : Type} (c : KuzuQAChain)
    (collab : KuzuCollab ε γ) (inputs : Dict String) (q : String) (e : ε)
    (h : dictLookup inputs c.input_key = some q)
    (hq : collab.queryFn
        (collab.genRun [("question", q), ("schema", collab.get_schema)]) = .error e) :
    (c.call collab inputs).1 = .error (.graphError e) := by
  rw [KuzuQAChain.call, h]
  simp [kuzuRun, hq]

/-- Witness for C6 at concrete collaborators whose graph raises on every
statement. -/
theorem kuzu_graph_error_propagation_witness :
    (KuzuQAChain.call {} exCollabErr [("query", "Who?")]).1 =
      .error (.graphError ()) :=
  kuzu_graph_error_propagation {} exCollabErr [("query", "Who?")] "Who?" () rfl rfl

/-- C10: the chain's declared input keys are the singleton of its input key
field and its declared output keys the singleton of its output key field,
which default to `"query"` and `"result"`; and every successful invocation
returns a mapping containing exactly the single key given by the chain's
output key (`"result"` for the declared default). -/
theorem kuzu_io_keys :
    (∀ c : KuzuQAChain, c.input_keys = [c.input_key] ∧ c.output_keys = [c.output_key]) ∧
    (({} : KuzuQAChain).input_keys = ["query"] ∧
      ({} : KuzuQAChain).output_keys = ["result"]) ∧
    (∀ (ε γ : Type) (c : KuzuQAChain) (collab : KuzuCollab ε γ)
        (inputs r : Dict String), (c.call collab inputs).1 = .ok r →
        ∃ a, r = [(c.output_key, a)]) := by
  refine ⟨fun c => ⟨rfl, rfl⟩, ⟨rfl, rfl⟩, ?_⟩
  intro ε γ c collab inputs r h
  rw [KuzuQAChain.call] at h
  rcases hl : dictLookup inputs c.input_key with _ | q
  · rw [hl] at h; exact absurd h (by simp)
  · rw [hl] at h
    rcases hq : collab.queryFn
        (collab.genRun [("question", q), ("schema", collab.get_schema)]) with e | ctx
    · simp [kuzuRun, hq] at h
    · simp only [kuzuRun, hq] at h
      rcases ha : dictLookup
          (collab.qaRun [("question", ChainVal.str q), ("context", ChainVal.ctx ctx)])
          collab.qaOutputKey with _ | a
      · simp [ha] at h
      · simp only [ha] at h
        exact ⟨a, by simpa using h.symm⟩

/-- Witness for C10 at concrete collaborators: the successful invocation's
result carries the single key `"result"`. -/
theorem kuzu_io_keys_witness :
    ∃ a, [("result", "the answer")] = [(({} : KuzuQAChain).output_key, a)] :=
  kuzu_io_keys.2.2 Unit String {} exCollab [("query", "Who?")]
    [("result", "the answer")] rfl

/-- C8: attempting to construct the adapter with no API key supplied either
as an explicit argument or via the process environment fails with a
configuration error (likewise for a missing organization id); construction
involves no transport interaction, so no network call is made. -/
theorem writer_missing_credential :
    (∀ (kwargs : Dict PyVal) (envOrgId : Option String),
        kwStr kwargs "writer_api_key" = none →
        ∃ err, Writer.construct kwargs none envOrgId = .error err) ∧
    (∀ (kwargs : Dict PyVal) (envApiKey : Option String),
        kwStr kwargs "writer_org_id" = none →
        ∃ err, Writer.construct kwargs envApiKey none = .error err) := by
  constructor
  · intro kwargs envOrgId h
    rcases hf : kwargs.find? (fun kv => !(decide (kv.1 ∈ writerFieldNames))) with _ | kv
    · have h1 : get_from_dict_or_env (kwStr kwargs "writer_api_key")
          (none : Option String) "WRITER_API_KEY" =
            .error (.missingValue "WRITER_API_KEY") := by
        simp only [get_from_dict_or_env, h]
      exact ⟨.missingValue "WRITER_API_KEY",
        by simp only [Writer.construct, hf, Writer.validate_environment, h1]⟩
    · exact ⟨.extraFieldNotPermitted kv.1, by simp only [Writer.construct, hf]⟩
  · intro kwargs envApiKey h
    rcases hf : kwargs.find? (fun kv => !(decide (kv.1 ∈ writerFieldNames))) with _ | kv
    · rcases hk : get_from_dict_or_env (kwStr kwargs "writer_api_key") envApiKey
          "WRITER_API_KEY" with e | k
      · exact ⟨e, by simp only [Writer.construct, hf, Writer.validate_environment, hk]⟩
      · have h2 : get_from_dict_or_env (kwStr kwargs "writer_org_id")
            (none : Option String) "WRITER_ORG_ID" =
              .error (.missingValue "WRITER_ORG_ID") := by
          simp only [get_from_dict_or_env, h]
        exact ⟨.missingValue "WRITER_ORG_ID",
          by simp only [Writer.construct, hf, Writer.validate_environment, hk, h2]⟩
    · exact ⟨.extraFieldNotPermitted kv.1, by simp only [Writer.construct, hf]⟩

/-- Witness for C8: construction with no arguments and an empty environment
fails. -/
theorem writer_missing_credential_witness :
    ∃ err, Writer.construct [] none none = .error err :=
  writer_missing_credential.1 [] none rfl

/-- C9: constructing the adapter with a supplied field name outside the
declared configuration field set fails with a validation error naming some
unrecognized field (`Config.extra = Extra.forbid`), rather than silently
ignoring it. -/
theorem writer_extra_field_forbidden (kwargs : Dict PyVal)
    (envApiKey envOrgId : Option String) (k : String) (v : PyVal)
    (hmem : (k, v) ∈ kwargs) (hk : k ∉ writerFieldNames) :
    ∃ bad, Writer.construct kwargs envApiKey envOrgId =
      .error (.extraFieldNotPermitted bad) ∧ bad ∉ writerFieldNames := by
  have hne : kwargs.find? (fun kv => !(decide (kv.1 ∈ writerFieldNames))) ≠ none := by
    rw [Ne, List.find?_eq_none]
    intro hall
    have := hall (k, v) hmem
    simp only [Bool.not_eq_true', decide_eq_false_iff_not, not_not] at this
    exact hk this
  rcases hf : kwargs.find? (fun kv => !(decide (kv.1 ∈ writerFieldNames))) with _ | kv
  · exact absurd hf hne
  · have hp := List.find?_some hf
    simp only [Bool.not_eq_true', decide_eq_false_iff_not] at hp
    exact ⟨kv.1, by simp only [Writer.construct, hf], hp⟩

/-- Witness for C9: a misspelled field name is rejected at construction. -/
theorem writer_extra_field_forbidden_witness :
    ∃ bad, Writer.construct [("tempratures", PyVal.int 1)] (some "k") (some "o") =
      .error (.extraFieldNotPermitted bad) ∧ bad ∉ writerFieldNames :=
  writer_extra_field_forbidden [("tempratures", PyVal.int 1)] (some "k") (some "o")
    "tempratures" (PyVal.int 1) (by decide) (by decide)

end LangchainSpec
